import Mathlib

/-!
Verification of the ButlerX (DaShan robot) command-and-control core:
the byte-stream framing protocol (`main/protocol.c` / `protocol.h`) and the
behavioral state machine (`main/state_machine.c` / `state_machine.h`),
shallow-embedded in Lean.  Machine integers are modelled as `Nat` with
explicit `% 256` / `% 2^16` truncation exactly where the C types truncate.
-/

namespace ButlerX

/-! ### Constants from `protocol.h` and `state_machine.h` -/

/-- Fixed synchronization byte (`#define FRAME_HEAD 0xAA`). -/
def FRAME_HEAD : Nat := 0xAA

/-- Maximum payload length (`#define MAX_DATA_LEN 1024`). -/
def MAX_DATA_LEN : Nat := 1024

/-- Command identifier `CMD_SET_STATE = 0x07` from the `CommandID` enum. -/
def CMD_SET_STATE : Nat := 0x07

/-- Command identifier `CMD_GET_STATUS = 0x08` from the `CommandID` enum. -/
def CMD_GET_STATUS : Nat := 0x08

/-- `STATE_IDLE` from the `SystemState` enum in `state_machine.h` (value 0). -/
def STATE_IDLE : Nat := 0

/-- `STATE_SLEEP` from the `SystemState` enum (value 1). -/
def STATE_SLEEP : Nat := 1

/-- `STATE_WAKE` from the `SystemState` enum (value 2). -/
def STATE_WAKE : Nat := 2

/-- `STATE_LISTEN` from the `SystemState` enum (value 3). -/
def STATE_LISTEN : Nat := 3

/-- `STATE_THINK` from the `SystemState` enum (value 4). -/
def STATE_THINK : Nat := 4

/-- `STATE_TALK` from the `SystemState` enum (value 5). -/
def STATE_TALK : Nat := 5

/-- Capacity of the outbound queue: `xQueueCreate(10, sizeof(ProtocolFrame))`
in `protocol_init`. -/
def TX_QUEUE_LENGTH : Nat := 10

/-! ### CRC-8 (`calc_crc8` in `protocol.c`)

```c
uint8_t calc_crc8(const uint8_t *data, uint16_t len) {
    uint8_t crc = 0;
    for (uint16_t i = 0; i < len; i++) {
        crc ^= data[i];
        for (int j = 0; j < 8; j++) {
            crc = (crc & 0x80) ? (crc << 1) ^ 0x07 : crc << 1;
        }
    }
    return crc & 0xFF;
}
```
`crc` is a `uint8_t`, so every assignment truncates to 8 bits. -/

/-- One inner-loop round: shift left, conditionally xor with the polynomial
0x07; the result is truncated to 8 bits as the C `uint8_t` assignment does. -/
def crc8Round (c : Nat) : Nat :=
  if 0x80 ≤ c % 256 then (((c % 256) * 2) ^^^ 0x07) % 256
  else ((c % 256) * 2) % 256

/-- Processing one input byte: xor it in, then run eight rounds. -/
def crc8Byte (c b : Nat) : Nat :=
  Nat.iterate crc8Round 8 ((c ^^^ b) % 256)

/-- `calc_crc8` over a byte list, starting from the zero accumulator. -/
def calc_crc8 (l : List Nat) : Nat :=
  l.foldl crc8Byte 0

/-! ### Outbound frames (`ProtocolFrame` as built by the sending paths)

`ProtocolFrame` is `{ uint8_t head; uint8_t cmd; uint16_t len;
uint8_t data[MAX_DATA_LEN]; uint8_t crc; }`.  On the sending side the
payload always has exactly `len` bytes, so we model the buffer as a list. -/

structure TxFrame where
  head : Nat
  cmd : Nat
  len : Nat
  data : List Nat
  crc : Nat
deriving DecidableEq

/-- The first `4 + len` bytes of the struct's memory image, as read by
`calc_crc8((uint8_t *)&frame, 4 + len)`: head, cmd, the little-endian
16-bit length, then the payload bytes. -/
def frameImage (f : TxFrame) : List Nat :=
  f.head % 256 :: f.cmd % 256 :: f.len % 256 :: (f.len >>> 8) % 256 :: f.data

/-- The pure part of `protocol_send_response` (protocol.c:127-137): build the
frame with `head = FRAME_HEAD`, the given command and payload, and the CRC
computed over the struct image.  (The enqueue it then performs is modelled
separately by `protocol_send_frame`.) -/
def protocol_send_response (cmd : Nat) (payload : List Nat) : TxFrame :=
  let f : TxFrame :=
    { head := FRAME_HEAD, cmd := cmd, len := payload.length, data := payload, crc := 0 }
  { f with crc := calc_crc8 (frameImage f) }

/-- Wire serialization of one frame, from `protocol_send_queued`
(protocol.c:105-113): `[head][cmd][len & 0xFF][(len >> 8) & 0xFF]
[payload...][crc]`. -/
def serializeFrame (f : TxFrame) : List Nat :=
  f.head :: f.cmd :: f.len % 256 :: (f.len >>> 8) % 256 :: (f.data ++ [f.crc])

/-! ### Outbound queue (`tx_queue`)

`protocol_send_frame` does `xQueueSend(handler->tx_queue, frame,
pdMS_TO_TICKS(100));` — the FreeRTOS send appends when the queue (capacity
`TX_QUEUE_LENGTH`) has room and returns `pdTRUE`; on a full queue, with no
concurrent consumer, it blocks for the whole 100 ms timeout and then
returns `errQUEUE_FULL`, leaving the queue unchanged.  The C function
discards that status (it returns `void`). -/

/-- FreeRTOS `xQueueSend` semantics on the bounded queue: `(status, queue)`. -/
def xQueueSend (q : List TxFrame) (f : TxFrame) : Bool × List TxFrame :=
  if q.length < TX_QUEUE_LENGTH then (true, q ++ [f]) else (false, q)

/-- `protocol_send_frame` (protocol.c:96-99): performs the send and throws
the status away — its only observable result is the new queue state. -/
def protocol_send_frame (q : List TxFrame) (f : TxFrame) : List TxFrame :=
  (xQueueSend q f).2

/-- Time the producer spends blocked inside the `xQueueSend` call: the frame
is accepted immediately when there is room; with the queue full and no
concurrent consumer, the call waits out the whole `pdMS_TO_TICKS(100)`
timeout before giving up. -/
def sendFrameBlockTimeMs (q : List TxFrame) : Nat :=
  if q.length < TX_QUEUE_LENGTH then 0 else 100

/-! ### Behavior controller (`state_machine.c`) -/

/-- `StateMachine` struct from `state_machine.h`.  States are modelled as
`Nat` because the C enum is an integer and the code never range-checks the
values it is handed. -/
structure StateMachine where
  current_state : Nat
  previous_state : Nat
  state_enter_time : Nat
  battery_level : Nat
  current_expression : Nat
  servo_h_angle : Nat
  servo_v_angle : Nat
  running : Bool
deriving DecidableEq

/-- Side effects a state-machine operation performs on its collaborators:
pushing an expression to the LED display (`led_matrix_set_expression`) and
handing a frame to the transport (`protocol_send_response`, which enqueues
it on the outbound queue). -/
inductive Effect where
  | setExpression (id : Nat)
  | sendFrame (f : TxFrame)
deriving DecidableEq

/-- The expression selected by the `switch (new_state)` in
`state_machine_transition` (state_machine.c:56-74); the `default` branch
leaves the current expression unchanged. -/
def transitionExpr (old : Nat) (s : Nat) : Nat :=
  if s = STATE_SLEEP then 0x00
  else if s = STATE_WAKE then 0x01
  else if s = STATE_LISTEN then 0x02
  else if s = STATE_THINK then 0x03
  else if s = STATE_TALK then 0x04
  else old

/-- The machine state produced after `state_machine_init`
(state_machine.c:13-27): zeroed struct, then the listed field writes. -/
def initStateMachine : StateMachine :=
  { current_state := STATE_SLEEP, previous_state := STATE_SLEEP,
    state_enter_time := 0, battery_level := 100, current_expression := 0x00,
    servo_h_angle := 90, servo_v_angle := 90, running := false }

/-- `state_machine_transition` (state_machine.c:42-86).  `now` is
`esp_timer_get_time() / 1000`; `stack` gives the initial contents of the
local `uint8_t data[9]` — indices 7 and 8 are never written by the C code,
so the status payload's last two bytes are whatever was on the stack.
Returns the new machine state and the effects performed. -/
def state_machine_transition (stack : Nat → Nat) (m : StateMachine) (now : Nat)
    (new_state : Nat) : StateMachine × List Effect :=
  if new_state = m.current_state then (m, [])
  else
    let expr := transitionExpr m.current_expression new_state
    let m2 : StateMachine :=
      { m with previous_state := m.current_state, current_state := new_state,
               state_enter_time := now, current_expression := expr }
    let data : List Nat :=
      [new_state % 256, m.battery_level % 256, expr % 256,
       m.servo_h_angle % 256, (m.servo_h_angle >>> 8) % 256,
       m.servo_v_angle % 256, (m.servo_v_angle >>> 8) % 256,
       stack 7 % 256, stack 8 % 256]
    (m2, [Effect.setExpression expr,
          Effect.sendFrame (protocol_send_response CMD_SET_STATE data)])

/-- `state_machine_update` (state_machine.c:88-119): nothing unless
`running`; computes `elapsed = now - state_enter_time` (the esp timer is
monotone, so the `uint32_t` subtraction equals truncated subtraction here)
and only the `STATE_WAKE` case with `elapsed > 2000` does anything. -/
def state_machine_update (stack : Nat → Nat) (m : StateMachine) (now : Nat) :
    StateMachine × List Effect :=
  if m.running = false then (m, [])
  else
    let elapsed := now - m.state_enter_time
    if m.current_state = STATE_WAKE then
      if 2000 < elapsed then state_machine_transition stack m now STATE_LISTEN
      else (m, [])
    else (m, [])

/-! ### Receive parser (`protocol_process_data`, protocol.c:31-94)

The `ProtocolHandler` receive half: the in-progress `rx_frame` (its fields
inlined here; `data` is the 1024-byte payload buffer, modelled as a total
function so that the out-of-bounds stores the C code can perform remain
expressible), the byte cursor `rx_index`, the `rx_receiving` flag, and the
dispatch table `callbacks` (a command byte is either bound or `NULL`;
bound handlers are invoked with the payload and its length). -/

structure ProtocolHandler where
  head : Nat
  cmd : Nat
  len : Nat
  data : Nat → Nat
  crc : Nat
  rx_index : Nat
  rx_receiving : Bool
  callbacks : Nat → Bool

/-- Observable events of one parsing step: a store into the payload buffer
(`rx_frame.data[rx_index - 4] = byte`, recorded with its relative index),
the completion of a frame (command, length, payload, received CRC byte,
computed CRC), and the invocation of a bound command handler. -/
inductive RxEvent where
  | store (idx : Nat) (b : Nat)
  | completed (cmd : Nat) (len : Nat) (payload : List Nat) (crcReceived : Nat)
      (crcComputed : Nat)
  | called (cmd : Nat) (payload : List Nat)
deriving DecidableEq

/-- Boolean discriminator for `RxEvent.completed`. -/
def isCompletedEvent : RxEvent → Bool
  | RxEvent.completed _ _ _ _ _ => true
  | _ => false

/-- Boolean discriminator for `RxEvent.called`. -/
def isCalledEvent : RxEvent → Bool
  | RxEvent.called _ _ => true
  | _ => false

/-- The struct-image bytes the completion branch feeds to
`calc_crc8((uint8_t *)&handler->rx_frame, 4 + handler->rx_frame.len)`:
head, cmd, little-endian length, then `len` payload-buffer bytes.  (For
`len ≤ MAX_DATA_LEN` this is exactly the memory the C call reads.) -/
def rxImage (h : ProtocolHandler) : List Nat :=
  h.head % 256 :: h.cmd % 256 :: h.len % 256 :: (h.len >>> 8) % 256 ::
    (List.range h.len).map h.data

/-- One iteration of the `for` loop of `protocol_process_data`: process a
single input byte.  Mirrors the C control flow: the sync hunt while not
receiving (with `continue`, skipping the length guard), the `rx_index++`,
the `switch` on the new index, and the trailing defensive reset when
`rx_index >= 4 + MAX_DATA_LEN + 1`. -/
def protocol_process_byte (h : ProtocolHandler) (b : Nat) :
    ProtocolHandler × List RxEvent :=
  if h.rx_receiving = false then
    if b = FRAME_HEAD then
      ({ h with rx_receiving := true, rx_index := 0, head := b }, [])
    else (h, [])
  else
    let i := h.rx_index + 1
    let r :=
      if i = 1 then ({ h with rx_index := i, cmd := b }, ([] : List RxEvent))
      else if i = 2 then ({ h with rx_index := i, len := b }, [])
      else if i = 3 then ({ h with rx_index := i, len := h.len ||| (b <<< 8) }, [])
      else if i < 4 + h.len then
        ({ h with rx_index := i, data := Function.update h.data (i - 4) b },
         [RxEvent.store (i - 4) b])
      else if i = 4 + h.len then
        let h2 := { h with rx_index := i, crc := b }
        let payload := (List.range h2.len).map h2.data
        let computed := calc_crc8 (rxImage h2)
        ({ h2 with rx_index := 0, rx_receiving := false },
         RxEvent.completed h2.cmd h2.len payload b computed ::
           (if computed = b ∧ h2.callbacks h2.cmd = true then
              [RxEvent.called h2.cmd payload]
            else []))
      else ({ h with rx_index := i }, [])
    if 4 + MAX_DATA_LEN + 1 ≤ r.1.rx_index then
      ({ r.1 with rx_receiving := false, rx_index := 0 }, r.2)
    else r

/-- `protocol_process_data`: feed the bytes one at a time, collecting the
events in order. -/
def protocol_process_data (h : ProtocolHandler) :
    List Nat → ProtocolHandler × List RxEvent
  | [] => (h, [])
  | b :: rest =>
    let r := protocol_process_byte h b
    let r2 := protocol_process_data r.1 rest
    (r2.1, r.2 ++ r2.2)

/-- The handler state right after `protocol_init` in a startup where no
`protocol_register_callback` call follows (which is what `app_main` does:
it never registers any handler): everything zeroed, every callback `NULL`. -/
def initHandler : ProtocolHandler :=
  { head := 0, cmd := 0, len := 0, data := fun _ => 0, crc := 0,
    rx_index := 0, rx_receiving := false, callbacks := fun _ => false }

/-- Iterated payload-buffer stores: write the bytes of `l` at consecutive
indices starting at `k`. -/
def writeList (f : Nat → Nat) (k : Nat) : List Nat → (Nat → Nat)
  | [] => f
  | b :: rest => writeList (Function.update f k b) (k + 1) rest

/-- The store events produced while writing `l` at consecutive indices
starting at `k`. -/
def storeEvents (k : Nat) : List Nat → List RxEvent
  | [] => []
  | b :: rest => RxEvent.store k b :: storeEvents (k + 1) rest

/-- Concrete parser state used as a test vector: mid-frame right before the
checksum byte of a zero-length frame, with every command bound. -/
def crcMismatchHandler : ProtocolHandler :=
  { head := 170, cmd := 1, len := 0, data := fun _ => 0, crc := 0,
    rx_index := 3, rx_receiving := true, callbacks := fun _ => true }

/-- Concrete machine used as a test vector: running, in `STATE_WAKE`,
entered at time 0. -/
def wakeMachine : StateMachine :=
  { current_state := STATE_WAKE, previous_state := STATE_SLEEP,
    state_enter_time := 0, battery_level := 100, current_expression := 0x01,
    servo_h_angle := 90, servo_v_angle := 90, running := true }

/-- `protocol_register_callback` (protocol.c:121-125): installs a handler
for a command identifier (we track only whether a handler is bound). -/
def protocol_register_callback (h : ProtocolHandler) (cmd : Nat) : ProtocolHandler :=
  { h with callbacks := Function.update h.callbacks cmd true }

/-- A handler state with every command bound — the hypothetical best case
for dispatch, which `app_main` never establishes (it registers nothing). -/
def allBoundHandler : ProtocolHandler :=
  { initHandler with callbacks := fun _ => true }

/-- Concrete machine used as a test vector: running, in `STATE_LISTEN`. -/
def listenMachine : StateMachine :=
  { wakeMachine with current_state := STATE_LISTEN }

/-- A concrete status frame used as a queue test vector. -/
def statusFrame5 : TxFrame :=
  protocol_send_response CMD_SET_STATE [5, 100, 4, 90, 0, 90, 0, 0, 0]

/-- An outbound queue filled to its capacity of `TX_QUEUE_LENGTH` frames. -/
def fullQueue : List TxFrame :=
  List.replicate TX_QUEUE_LENGTH (protocol_send_response CMD_GET_STATUS [0])

/-- The §8 concrete-scenario byte sequence: `AA 07 09 00 05 64 01 5A 00 5A
00` followed by the CRC-8 of those eleven bytes (the only reading of "the
correct CRC byte" for this stream; any other final byte is likewise
consumed as a payload store, since the declared length 9 exceeds the seven
payload bytes supplied). -/
def scenarioBytes : List Nat :=
  [0xAA, 0x07, 0x09, 0x00, 0x05, 0x64, 0x01, 0x5A, 0x00, 0x5A, 0x00] ++
    [calc_crc8 [0xAA, 0x07, 0x09, 0x00, 0x05, 0x64, 0x01, 0x5A, 0x00, 0x5A, 0x00]]

/-- Boolean discriminator for `Effect.sendFrame`. -/
def isSendFrameEffect : Effect → Bool
  | Effect.sendFrame _ => true
  | _ => false

/-! ### Helper lemmas -/

/-- Reassembling a 16-bit length from its little-endian bytes: the parser
computes `len = lo ||| (hi <<< 8)` from the serialized `lo = n % 256`,
`hi = (n >>> 8) % 256`; for `n < 2^16` this recovers `n`. -/
theorem len_reassemble (n : Nat) (hn : n < 2 ^ 16) :
    n % 256 ||| ((n >>> 8) % 256) <<< 8 = n := by
  have h8 : n >>> 8 = n / 256 := by
    simp [Nat.shiftRight_eq_div_pow]
  have hlt : n / 256 < 256 := by omega
  have hmod : (n >>> 8) % 256 = n >>> 8 := by
    rw [h8]; exact Nat.mod_eq_of_lt hlt
  rw [hmod]
  apply Nat.eq_of_testBit_eq
  intro i
  rcases Nat.lt_or_ge i 8 with hi | hi
  · simp only [Nat.testBit_or, Nat.testBit_shiftLeft, Nat.testBit_shiftRight]
    have h256 : (256 : Nat) = 2 ^ 8 := by norm_num
    rw [h256, Nat.testBit_mod_two_pow]
    simp [hi, Nat.not_le.mpr hi]
  · simp only [Nat.testBit_or, Nat.testBit_shiftLeft, Nat.testBit_shiftRight]
    have h256 : (256 : Nat) = 2 ^ 8 := by norm_num
    rw [h256, Nat.testBit_mod_two_pow]
    have : ¬ i < 8 := Nat.not_lt.mpr hi
    have hadd : 8 + (i - 8) = i := by omega
    simp [this, hi, hadd]

/-- Splitting a byte stream: processing `a ++ b` is processing `a`, then
processing `b` from the resulting state, concatenating the events. -/
theorem protocol_process_data_append (h : ProtocolHandler) (a b : List Nat) :
    protocol_process_data h (a ++ b) =
      ((protocol_process_data (protocol_process_data h a).1 b).1,
       (protocol_process_data h a).2 ++
         (protocol_process_data (protocol_process_data h a).1 b).2) := by
  induction a generalizing h with
  | nil => simp [protocol_process_data]
  | cons x xs ih =>
    simp [protocol_process_data, ih (protocol_process_byte h x).1, List.append_assoc]

/-- While idle, bytes other than the sync byte are discarded: state and
event-free. -/
theorem feed_garbage (g : List Nat) : ∀ (h : ProtocolHandler),
    h.rx_receiving = false → (∀ b ∈ g, b ≠ FRAME_HEAD) →
    protocol_process_data h g = (h, []) := by
  induction g with
  | nil => intro h _ _; simp [protocol_process_data]
  | cons x xs ih =>
    intro h hid hg
    have hx : x ≠ FRAME_HEAD := hg x (List.mem_cons_self x xs)
    have : protocol_process_byte h x = (h, []) := by
      simp [protocol_process_byte, hid, hx]
    simp [protocol_process_data, this,
      ih h hid (fun b hb => hg b (List.mem_cons_of_mem x hb))]

/-- Feeding the four header bytes (sync, command, little-endian length) to
an idle parser: the parser enters a frame and stores them. -/
theorem feed_header (h : ProtocolHandler) (c b2 b3 : Nat)
    (hid : h.rx_receiving = false) :
    protocol_process_data h [FRAME_HEAD, c, b2, b3] =
      ({ h with rx_receiving := true, rx_index := 3, head := FRAME_HEAD,
                cmd := c, len := b2 ||| (b3 <<< 8) }, []) := by
  simp [protocol_process_data, protocol_process_byte, hid, FRAME_HEAD, MAX_DATA_LEN]

/-- A store at an index below `k` is untouched by `writeList` at `k`. -/
theorem writeList_lt (l : List Nat) : ∀ (f : Nat → Nat) (k j : Nat), j < k →
    writeList f k l j = f j := by
  induction l with
  | nil => intro f k j _; simp [writeList]
  | cons b rest ih =>
    intro f k j hj
    have hne : j ≠ k := Nat.ne_of_lt hj
    rw [writeList, ih (Function.update f k b) (k + 1) j (Nat.lt_succ_of_lt hj),
      Function.update_noteq hne]

/-- Reading back a byte written by `writeList`. -/
theorem writeList_get (l : List Nat) : ∀ (f : Nat → Nat) (k i : Nat)
    (hi : i < l.length), writeList f k l (k + i) = l.get ⟨i, hi⟩ := by
  induction l with
  | nil => intro f k i hi; simp at hi
  | cons b rest ih =>
    intro f k i hi
    cases i with
    | zero =>
      have h1 := writeList_lt rest (Function.update f k b) (k + 1) k (Nat.lt_succ_self k)
      simp [writeList, h1]
    | succ j =>
      have hj : j < rest.length := by simpa using hi
      have harr : k + (j + 1) = (k + 1) + j := by omega
      rw [writeList, harr, ih (Function.update f k b) (k + 1) j hj]
      simp

/-- Reading the whole payload buffer back after writing `l` from index 0
recovers `l`. -/
theorem range_map_writeList (l : List Nat) (f : Nat → Nat) :
    (List.range l.length).map (writeList f 0 l) = l := by
  apply List.ext_get
  · simp
  · intro i h1 h2
    simp only [List.get_eq_getElem, List.getElem_map, List.getElem_range]
    have hi : i < l.length := by simpa using h1
    have := writeList_get l f 0 i hi
    simpa using this

/-- Store events contain no frame completions. -/
theorem storeEvents_filter_completed (l : List Nat) : ∀ (k : Nat),
    (storeEvents k l).filter isCompletedEvent = [] := by
  induction l with
  | nil => intro k; simp [storeEvents]
  | cons b rest ih => intro k; simp [storeEvents, isCompletedEvent, ih]

/-- Store events contain no handler invocations. -/
theorem storeEvents_filter_called (l : List Nat) : ∀ (k : Nat),
    (storeEvents k l).filter isCalledEvent = [] := by
  induction l with
  | nil => intro k; simp [storeEvents]
  | cons b rest ih => intro k; simp [storeEvents, isCalledEvent, ih]

/-- Every position written while storing a replicated byte shows up as a
store event. -/
theorem store_mem_storeEvents (n : Nat) : ∀ (k i : Nat) (b : Nat), i < n →
    RxEvent.store (k + i) b ∈ storeEvents k (List.replicate n b) := by
  induction n with
  | zero => intro k i b hi; omega
  | succ m ih =>
    intro k i b hi
    rw [List.replicate_succ, storeEvents]
    cases i with
    | zero => simp
    | succ j =>
      have hj : j < m := by omega
      have := ih (k + 1) j b hj
      have harr : k + (j + 1) = (k + 1) + j := by omega
      rw [harr]
      exact List.mem_cons_of_mem _ this

/-- Feeding bytes that all land inside the declared payload window: each is
stored at its relative offset and the parser stays inside the frame.  The
bound `len ≤ 1025` is exactly what keeps the trailing defensive reset
(`rx_index >= 4 + MAX_DATA_LEN + 1`) from firing during these stores — note
it tolerates one more than `MAX_DATA_LEN`, which is the out-of-bounds
window exploited in the C10 analysis. -/
theorem feed_payload (rest : List Nat) :
    ∀ (hd cm ln : Nat) (d : Nat → Nat) (cr k : Nat) (cbs : Nat → Bool),
    k + rest.length ≤ ln → ln ≤ 1025 →
    protocol_process_data (ProtocolHandler.mk hd cm ln d cr (3 + k) true cbs) rest =
      (ProtocolHandler.mk hd cm ln (writeList d k rest) cr (3 + k + rest.length)
         true cbs,
       storeEvents k rest) := by
  induction rest with
  | nil =>
    intro hd cm ln d cr k cbs _ _
    simp [protocol_process_data, writeList, storeEvents]
  | cons b rest ih =>
    intro hd cm ln d cr k cbs hle hlen
    have hi1 : ¬ (3 + k + 1 = 1) := by omega
    have hi2 : ¬ (3 + k + 1 = 2) := by omega
    have hi3 : ¬ (3 + k + 1 = 3) := by omega
    have hstore : 3 + k + 1 < 4 + ln := by
      have : rest.length + 1 = (b :: rest).length := by simp
      omega
    have hguard : ¬ 4 + MAX_DATA_LEN + 1 ≤ 3 + k + 1 := by
      simp only [MAX_DATA_LEN]
      omega
    have hsub : 3 + k + 1 - 4 = k := by omega
    have hstep : protocol_process_byte
          (ProtocolHandler.mk hd cm ln d cr (3 + k) true cbs) b =
        (ProtocolHandler.mk hd cm ln (Function.update d k b) cr (3 + k + 1)
           true cbs,
         [RxEvent.store k b]) := by
      simp [protocol_process_byte, hi1, hi2, hi3, hstore, hguard, hsub]
    have hidx : 3 + k + 1 = 3 + (k + 1) := by omega
    have hrest := ih hd cm ln (Function.update d k b) cr (k + 1) cbs
      (by simp at hle; omega) hlen
    rw [protocol_process_data, hstep]
    simp only [hidx]
    rw [hrest]
    have hcount : 3 + (k + 1) + rest.length = 3 + k + (b :: rest).length := by
      simp
      omega
    rw [hcount]
    simp [writeList, storeEvents]

/-- Feeding the byte at offset `4 + len`: it is taken as the received CRC,
the checksum is recomputed over the struct image, a completion is emitted
(plus a handler call when the CRC matches and the command is bound), and
the parser resets to idle. -/
theorem feed_crc (hd cm ln : Nat) (d : Nat → Nat) (cr : Nat) (cbs : Nat → Bool)
    (b : Nat) :
    protocol_process_byte (ProtocolHandler.mk hd cm ln d cr (3 + ln) true cbs) b =
      (ProtocolHandler.mk hd cm ln d b 0 false cbs,
       RxEvent.completed cm ln ((List.range ln).map d) b
           (calc_crc8 (hd % 256 :: cm % 256 :: ln % 256 :: (ln >>> 8) % 256 ::
             (List.range ln).map d)) ::
         (if calc_crc8 (hd % 256 :: cm % 256 :: ln % 256 :: (ln >>> 8) % 256 ::
               (List.range ln).map d) = b ∧ cbs cm = true then
            [RxEvent.called cm ((List.range ln).map d)]
          else [])) := by
  have hi1 : ¬ (4 + ln = 1) := by omega
  have hi2 : ¬ (4 + ln = 2) := by omega
  have hi3 : ¬ (4 + ln = 3) := by omega
  have hlt : ¬ (3 + ln + 1 < 4 + ln) := by omega
  have heq : 3 + ln + 1 = 4 + ln := by omega
  simp [protocol_process_byte, heq, hi1, hi2, hi3, hlt, rxImage, MAX_DATA_LEN]

/-- Full round trip from an idle parser: serializing a constructed frame and
feeding it back yields exactly the stores, one completion whose received and
computed checksums are both the constructed CRC, and a handler call exactly
when the command is bound. -/
theorem roundtrip_core (h : ProtocolHandler) (cmd : Nat) (payload : List Nat)
    (hid : h.rx_receiving = false) (hlen : payload.length ≤ 1024) :
    protocol_process_data h (serializeFrame (protocol_send_response cmd payload)) =
      (ProtocolHandler.mk FRAME_HEAD cmd payload.length (writeList h.data 0 payload)
         (protocol_send_response cmd payload).crc 0 false h.callbacks,
       storeEvents 0 payload ++
         RxEvent.completed cmd payload.length payload
             (protocol_send_response cmd payload).crc
             (protocol_send_response cmd payload).crc ::
           (if h.callbacks cmd = true then [RxEvent.called cmd payload] else [])) := by
  have hL16 : payload.length < 2 ^ 16 := by omega
  have hser : serializeFrame (protocol_send_response cmd payload) =
      [FRAME_HEAD, cmd, payload.length % 256, (payload.length >>> 8) % 256] ++
        (payload ++ [(protocol_send_response cmd payload).crc]) := by
    simp [serializeFrame, protocol_send_response]
  rw [hser, protocol_process_data_append, feed_header h cmd _ _ hid,
    len_reassemble payload.length hL16]
  have hp := feed_payload payload FRAME_HEAD cmd payload.length h.data h.crc 0
    h.callbacks (by omega) (by omega)
  simp only [Nat.add_zero, Nat.zero_add] at hp
  rw [protocol_process_data_append]
  simp only []
  rw [hp]
  have hc := feed_crc FRAME_HEAD cmd payload.length (writeList h.data 0 payload)
    h.crc h.callbacks (protocol_send_response cmd payload).crc
  rw [range_map_writeList payload h.data] at hc
  have hcrc : calc_crc8 (FRAME_HEAD % 256 :: cmd % 256 :: payload.length % 256 ::
      (payload.length >>> 8) % 256 :: payload) =
      (protocol_send_response cmd payload).crc := by
    simp [protocol_send_response, frameImage]
  rw [hcrc] at hc
  simp only [protocol_process_data]
  rw [hc]
  simp

/-! ### Claim theorems -/

/-- Claim C1: for every command byte and payload of length at most 1024,
building a frame (head 0xAA, command, little-endian 16-bit length, payload,
CRC-8 over head ‖ command ‖ length ‖ payload), serializing it, and feeding
the bytes one at a time to an idle parser yields exactly one completed
frame, whose command and payload equal the originals and whose computed
checksum equals its received checksum (both are the constructed CRC). -/
theorem c1_framing_roundtrip (h : ProtocolHandler) (cmd : Nat) (payload : List Nat)
    (hid : h.rx_receiving = false) (hcmd : cmd < 256)
    (hbytes : ∀ b ∈ payload, b < 256) (hlen : payload.length ≤ 1024) :
    ((protocol_process_data h
        (serializeFrame (protocol_send_response cmd payload))).2.filter
          isCompletedEvent =
      [RxEvent.completed cmd payload.length payload
        (protocol_send_response cmd payload).crc
        (protocol_send_response cmd payload).crc]) ∧
    (protocol_process_data h
      (serializeFrame (protocol_send_response cmd payload))).1.rx_receiving = false ∧
    (protocol_process_data h
      (serializeFrame (protocol_send_response cmd payload))).1.rx_index = 0 := by
  rw [roundtrip_core h cmd payload hid hlen]
  refine ⟨?_, rfl, rfl⟩
  rw [List.filter_append, storeEvents_filter_completed]
  by_cases hc : h.callbacks cmd = true <;>
    simp [hc, isCompletedEvent]

/-- Witness for C1 at the concrete input `cmd = 7`, `payload = [1, 2, 3]`. -/
theorem c1_witness :
    (initHandler.rx_receiving = false ∧ (7 : Nat) < 256 ∧
      (∀ b ∈ ([1, 2, 3] : List Nat), b < 256) ∧
      ([1, 2, 3] : List Nat).length ≤ 1024) ∧
    ((protocol_process_data initHandler
        (serializeFrame (protocol_send_response 7 [1, 2, 3]))).2.filter
          isCompletedEvent =
      [RxEvent.completed 7 ([1, 2, 3] : List Nat).length [1, 2, 3]
        (protocol_send_response 7 [1, 2, 3]).crc
        (protocol_send_response 7 [1, 2, 3]).crc]) :=
  ⟨⟨rfl, by decide, by decide, by decide⟩,
    (c1_framing_roundtrip initHandler 7 [1, 2, 3] rfl (by decide) (by decide)
      (by decide)).1⟩

/-- Claim C2: whenever processing a byte completes a frame — from any parser
state, hence at any point of any input stream — the parser returns to idle
(`rx_receiving` false, cursor zero) whether or not the checksum matched,
and if the computed checksum differs from the received checksum byte then
no command handler is invoked for that frame. -/
theorem c2_invalid_frame_discarded (h : ProtocolHandler) (b : Nat)
    (cmd ln : Nat) (payload : List Nat) (rc cc : Nat)
    (hmem : RxEvent.completed cmd ln payload rc cc ∈ (protocol_process_byte h b).2) :
    (protocol_process_byte h b).1.rx_receiving = false ∧
    (protocol_process_byte h b).1.rx_index = 0 ∧
    (cc ≠ rc → ∀ c p, RxEvent.called c p ∉ (protocol_process_byte h b).2) := by
  obtain ⟨hd, cm, ln, d, cr, ri, rr, cbs⟩ := h
  cases rr with
  | false =>
    by_cases hb : b = FRAME_HEAD <;> simp [protocol_process_byte, hb] at hmem
  | true =>
    by_cases h1 : ri + 1 = 1
    · by_cases hg : 4 + MAX_DATA_LEN + 1 ≤ ri + 1 <;>
        simp [protocol_process_byte, MAX_DATA_LEN, h1, hg] at hmem
    · by_cases h2 : ri + 1 = 2
      · by_cases hg : 4 + MAX_DATA_LEN + 1 ≤ ri + 1 <;>
          simp [protocol_process_byte, MAX_DATA_LEN, h1, h2, hg] at hmem
      · by_cases h3 : ri + 1 = 3
        · by_cases hg : 4 + MAX_DATA_LEN + 1 ≤ ri + 1 <;>
            simp [protocol_process_byte, MAX_DATA_LEN, h1, h2, h3, hg] at hmem
        · by_cases h4 : ri + 1 < 4 + ln
          · simp [protocol_process_byte, MAX_DATA_LEN, h1, h2, h3, h4] at hmem
            all_goals split at hmem
            all_goals simp at hmem
          · by_cases h5 : ri + 1 = 4 + ln
            · have hri : ri = 3 + ln := by omega
              subst hri
              rw [feed_crc hd cm ln d cr cbs b] at hmem ⊢
              refine ⟨rfl, rfl, ?_⟩
              intro hne c p hmem2
              rcases List.mem_cons.mp hmem with hhead | htail
              · injection hhead with e1 e2 e3 e4 e5
                have hcond : ¬ (calc_crc8 (hd % 256 :: cm % 256 :: ln % 256 ::
                    (ln >>> 8) % 256 :: (List.range ln).map d) = b ∧
                    cbs cm = true) := by
                  intro hco
                  apply hne
                  rw [e5, e4]
                  exact hco.1
                rw [if_neg hcond] at hmem2
                simp at hmem2
              · by_cases hco : calc_crc8 (hd % 256 :: cm % 256 :: ln % 256 ::
                    (ln >>> 8) % 256 :: (List.range ln).map d) = b ∧
                    cbs cm = true <;>
                  simp [hco] at htail
            · simp [protocol_process_byte, MAX_DATA_LEN, h1, h2, h3, h4, h5] at hmem
              all_goals split at hmem
              all_goals simp at hmem

set_option maxRecDepth 8192 in
/-- Witness for C2: a zero-length frame whose received CRC byte 0 differs
from the computed CRC of its header. -/
theorem c2_witness :
    (RxEvent.completed 1 0 [] 0 (calc_crc8 [170, 1, 0, 0]) ∈
      (protocol_process_byte crcMismatchHandler 0).2) ∧
    (protocol_process_byte crcMismatchHandler 0).1.rx_receiving = false ∧
    (protocol_process_byte crcMismatchHandler 0).1.rx_index = 0 ∧
    (calc_crc8 [170, 1, 0, 0] ≠ 0 → ∀ c p,
      RxEvent.called c p ∉ (protocol_process_byte crcMismatchHandler 0).2) :=
  ⟨by decide,
    c2_invalid_frame_discarded crcMismatchHandler 0 1 0 [] 0
      (calc_crc8 [170, 1, 0, 0]) (by decide)⟩

set_option maxRecDepth 32768 in
/-- Claim C3 fails on the code (code bug): `app_main` never calls
`protocol_register_callback`, so after startup no command identifier —
`CMD_SET_STATE` included — has a handler (`initHandler.callbacks` is the
all-`NULL` table `protocol_init` leaves behind); moreover the scenario's
byte sequence declares payload length 9 but supplies only seven payload
bytes, so the parser is still mid-frame after consuming all twelve bytes
(`rx_receiving` is still true), completes no frame, and invokes no handler
— even in the hypothetical state where every command is bound.  Hence
`current_state` cannot become `TALK` through these bytes. -/
theorem c3_scenario_fails :
    (protocol_process_data initHandler scenarioBytes).1.rx_receiving = true ∧
    ((protocol_process_data initHandler scenarioBytes).2.filter isCompletedEvent = []) ∧
    ((protocol_process_data initHandler scenarioBytes).2.filter isCalledEvent = []) ∧
    ((protocol_process_data allBoundHandler scenarioBytes).2.filter isCalledEvent = []) ∧
    initHandler.callbacks CMD_SET_STATE = false := by
  decide

set_option maxRecDepth 32768 in
/-- Claim C4 fails on the code (code bug the spec itself flags in §9):
`state_machine_transition` applies an out-of-range state value verbatim.
From the initial machine (`current_state = STATE_SLEEP`), requesting state
7 — outside the closed enumeration `{1, ..., 5}` — mutates
`current_state` to 7, leaves the expression at the `switch` default
(unchanged), and emits effects (display push and a status frame) instead of
rejecting the request without mutation. -/
theorem c4_out_of_range_accepted :
    STATE_TALK < 7 ∧
    initStateMachine.current_state = STATE_SLEEP ∧
    (state_machine_transition (fun _ => 0) initStateMachine 1000 7).1.current_state = 7 ∧
    (state_machine_transition (fun _ => 0) initStateMachine 1000 7).1 ≠ initStateMachine ∧
    (state_machine_transition (fun _ => 0) initStateMachine 1000 7).2 ≠ [] ∧
    (state_machine_transition (fun _ => 0) initStateMachine 1000 7).1.current_expression =
      initStateMachine.current_expression := by
  decide

set_option maxRecDepth 32768 in
/-- Counterexample to claim C5 as stated: enqueuing into the full queue is
neither non-blocking nor reported.  `protocol_send_frame` passes the 100 ms
`pdMS_TO_TICKS(100)` timeout to `xQueueSend`, so with a full queue and no
concurrent consumer the producer is blocked for 100 ms (not 0); the frame
is silently dropped (`statusFrame5` is not in the resulting queue, which
equals the old queue), and the `errQUEUE_FULL` status `xQueueSend` returns
is discarded by the `void` `protocol_send_frame`, so no rejection reaches
the caller. -/
theorem c5_counterexample :
    fullQueue.length = TX_QUEUE_LENGTH ∧
    protocol_send_frame fullQueue statusFrame5 = fullQueue ∧
    statusFrame5 ∉ fullQueue ∧
    (xQueueSend fullQueue statusFrame5).1 = false ∧
    sendFrameBlockTimeMs fullQueue = 100 := by
  refine ⟨by decide, by decide, ?_, by decide, by decide⟩
  intro hmem
  have : statusFrame5 = protocol_send_response CMD_GET_STATUS [0] :=
    List.eq_of_mem_replicate hmem
  exact absurd this (by decide)

/-- Claim C5 as amended: enqueuing below capacity succeeds, appending the
frame without delay; enqueuing at capacity leaves the queued frames intact
and in order and drops the new frame, but blocks the producer for the
100 ms send timeout, and the rejection status is discarded inside
`protocol_send_frame` (void return) rather than reported to the caller. -/
theorem c5_enqueue_amended (q : List TxFrame) (f : TxFrame) :
    (q.length < TX_QUEUE_LENGTH →
      xQueueSend q f = (true, q ++ [f]) ∧ protocol_send_frame q f = q ++ [f] ∧
      sendFrameBlockTimeMs q = 0) ∧
    (TX_QUEUE_LENGTH ≤ q.length →
      xQueueSend q f = (false, q) ∧ protocol_send_frame q f = q ∧
      sendFrameBlockTimeMs q = 100) := by
  by_cases hq : q.length < TX_QUEUE_LENGTH
  · refine ⟨fun _ => ?_, fun hc => absurd hc (by omega)⟩
    simp [xQueueSend, protocol_send_frame, sendFrameBlockTimeMs, hq]
  · refine ⟨fun hc => absurd hc hq, fun _ => ?_⟩
    simp [xQueueSend, protocol_send_frame, sendFrameBlockTimeMs, hq]

set_option maxRecDepth 32768 in
/-- Witness for the amended C5 at an empty and a full queue. -/
theorem c5_witness :
    (xQueueSend [] statusFrame5 = (true, [statusFrame5]) ∧
      protocol_send_frame [] statusFrame5 = [statusFrame5] ∧
      sendFrameBlockTimeMs [] = 0) ∧
    (xQueueSend fullQueue statusFrame5 = (false, fullQueue) ∧
      protocol_send_frame fullQueue statusFrame5 = fullQueue ∧
      sendFrameBlockTimeMs fullQueue = 100) :=
  ⟨(c5_enqueue_amended [] statusFrame5).1 (by decide),
    (c5_enqueue_amended fullQueue statusFrame5).2 (by decide)⟩

set_option maxRecDepth 32768 in
/-- Counterexample to claim C6 as stated: its parenthetical "advancing the
clock 2000 ms suffices" fails.  With the running machine in `STATE_WAKE`
entered at time 0, the update at time 2000 — elapsed exactly 2000 ms —
does nothing, because the code requires `elapsed > 2000` strictly; one
millisecond later it transitions to `STATE_LISTEN`. -/
theorem c6_counterexample :
    wakeMachine.running = true ∧
    wakeMachine.current_state = STATE_WAKE ∧
    wakeMachine.state_enter_time = 0 ∧
    state_machine_update (fun _ => 0) wakeMachine 2000 = (wakeMachine, []) ∧
    (state_machine_update (fun _ => 0) wakeMachine 2001).1.current_state =
      STATE_LISTEN := by
  decide

/-- Claim C6 as amended: while running, the update step transitions to
`LISTEN` exactly when `current_state = STATE_WAKE` and the elapsed time
since `state_enter_timestamp` strictly exceeds 2000 ms (2001 ms suffices,
2000 ms does not); in every other case — other states, or elapsed at most
2000 ms — the update changes nothing and emits nothing. -/
theorem c6_time_driven_exit (stack : Nat → Nat) (m : StateMachine) (now : Nat)
    (hrun : m.running = true) :
    (m.current_state = STATE_WAKE → 2000 < now - m.state_enter_time →
      state_machine_update stack m now =
        state_machine_transition stack m now STATE_LISTEN ∧
      (state_machine_update stack m now).1.current_state = STATE_LISTEN) ∧
    ((m.current_state = STATE_WAKE → now - m.state_enter_time ≤ 2000) →
      state_machine_update stack m now = (m, [])) := by
  constructor
  · intro hw ht
    have hupd : state_machine_update stack m now =
        state_machine_transition stack m now STATE_LISTEN := by
      simp [state_machine_update, hrun, hw, ht]
    refine ⟨hupd, ?_⟩
    rw [hupd]
    have hne : ¬ (STATE_LISTEN = m.current_state) := by
      rw [hw]; decide
    simp [state_machine_transition, hne]
  · intro hle
    by_cases hw : m.current_state = STATE_WAKE
    · have ht : ¬ (2000 < now - m.state_enter_time) := by
        have := hle hw
        omega
      simp [state_machine_update, hrun, hw, ht]
    · simp [state_machine_update, hrun, hw]

set_option maxRecDepth 32768 in
/-- Witness for the amended C6: the wake machine at 2500 ms transitions to
`LISTEN`; the listen machine never transitions on time. -/
theorem c6_witness :
    (state_machine_update (fun _ => 0) wakeMachine 2500 =
        state_machine_transition (fun _ => 0) wakeMachine 2500 STATE_LISTEN ∧
      (state_machine_update (fun _ => 0) wakeMachine 2500).1.current_state =
        STATE_LISTEN) ∧
    state_machine_update (fun _ => 0) listenMachine 99999 = (listenMachine, []) :=
  ⟨(c6_time_driven_exit (fun _ => 0) wakeMachine 2500 rfl).1 rfl (by decide),
    (c6_time_driven_exit (fun _ => 0) listenMachine 99999 rfl).2 (by decide)⟩

set_option maxRecDepth 32768 in
/-- Counterexample to claim C7 as stated: "garbage" is not arbitrary.  The
garbage prefix `AA 01 05 00` contains the sync byte, so the parser starts a
bogus frame with declared length 5 and swallows the entire well-formed
frame (command 2, empty payload) as that bogus frame's payload: feeding
garbage then frame completes no frame at all and leaves the parser
mid-frame, instead of emitting the well-formed frame. -/
theorem c7_counterexample :
    ((protocol_process_data initHandler
        ([0xAA, 0x01, 0x05, 0x00] ++
          serializeFrame (protocol_send_response 2 []))).2.filter
      isCompletedEvent = []) ∧
    (protocol_process_data initHandler
        ([0xAA, 0x01, 0x05, 0x00] ++
          serializeFrame (protocol_send_response 2 []))).1.rx_receiving = true := by
  decide

/-- Claim C7 as amended: for every garbage prefix containing no sync byte
(0xAA), feeding the garbage followed by the serialized bytes of one
well-formed frame to an idle parser emits exactly that frame — one
completion with the original command and payload and matching checksums —
and no spurious frame from the garbage. -/
theorem c7_resync (h : ProtocolHandler) (garbage : List Nat) (cmd : Nat)
    (payload : List Nat) (hid : h.rx_receiving = false)
    (hg : ∀ b ∈ garbage, b ≠ FRAME_HEAD) (hcmd : cmd < 256)
    (hbytes : ∀ b ∈ payload, b < 256) (hlen : payload.length ≤ 1024) :
    ((protocol_process_data h
        (garbage ++ serializeFrame (protocol_send_response cmd payload))).2.filter
          isCompletedEvent =
      [RxEvent.completed cmd payload.length payload
        (protocol_send_response cmd payload).crc
        (protocol_send_response cmd payload).crc]) ∧
    (protocol_process_data h
      (garbage ++
        serializeFrame (protocol_send_response cmd payload))).1.rx_receiving =
      false := by
  rw [protocol_process_data_append, feed_garbage garbage h hid hg]
  simp only [List.nil_append]
  rw [roundtrip_core h cmd payload hid hlen]
  refine ⟨?_, rfl⟩
  rw [List.filter_append, storeEvents_filter_completed]
  by_cases hc : h.callbacks cmd = true <;> simp [hc, isCompletedEvent]

set_option maxRecDepth 32768 in
/-- Witness for the amended C7: garbage `01 02 03` then the frame for
command 2 with payload `[9]`. -/
theorem c7_witness :
    ((protocol_process_data initHandler
        ([1, 2, 3] ++ serializeFrame (protocol_send_response 2 [9]))).2.filter
          isCompletedEvent =
      [RxEvent.completed 2 ([9] : List Nat).length [9]
        (protocol_send_response 2 [9]).crc (protocol_send_response 2 [9]).crc]) ∧
    (protocol_process_data initHandler
      ([1, 2, 3] ++
        serializeFrame (protocol_send_response 2 [9]))).1.rx_receiving = false :=
  c7_resync initHandler [1, 2, 3] 2 [9] rfl (by decide) (by decide) (by decide)
    (by decide)

/-- Claim C8: a self-transition is a no-op — when the requested state equals
`current_state`, `state_machine_transition` returns the machine with every
field unchanged, pushes no expression to the display, and emits no status
frame. -/
theorem c8_self_transition_noop (stack : Nat → Nat) (m : StateMachine) (now : Nat)
    (s : Nat) (hs : s = m.current_state) :
    state_machine_transition stack m now s = (m, []) := by
  simp [state_machine_transition, hs]

/-- Witness for C8: a self-transition to `STATE_SLEEP` on the initial
machine. -/
theorem c8_witness :
    initStateMachine.current_state = STATE_SLEEP ∧
    state_machine_transition (fun _ => 0) initStateMachine 42 STATE_SLEEP =
      (initStateMachine, []) :=
  ⟨rfl, c8_self_transition_noop (fun _ => 0) initStateMachine 42 STATE_SLEEP rfl⟩

/-- Claim C9: for each of the five real states, transitioning into it from a
different state records `previous_state`, sets `current_state`, selects the
expression by the fixed mapping `SLEEP→0, WAKE→1, LISTEN→2, THINK→3,
TALK→4` (equal to `s - 1` on this enumeration), pushes that expression to
the display, and hands the transport exactly one status frame whose payload
carries the new state and that expression. -/
theorem c9_transition_coverage (stack : Nat → Nat) (m : StateMachine) (now : Nat)
    (s : Nat)
    (hs : s = STATE_SLEEP ∨ s = STATE_WAKE ∨ s = STATE_LISTEN ∨
      s = STATE_THINK ∨ s = STATE_TALK)
    (hne : s ≠ m.current_state) :
    state_machine_transition stack m now s =
      ({ m with previous_state := m.current_state, current_state := s,
                state_enter_time := now, current_expression := s - 1 },
       [Effect.setExpression (s - 1),
        Effect.sendFrame (protocol_send_response CMD_SET_STATE
          [s, m.battery_level % 256, s - 1,
           m.servo_h_angle % 256, (m.servo_h_angle >>> 8) % 256,
           m.servo_v_angle % 256, (m.servo_v_angle >>> 8) % 256,
           stack 7 % 256, stack 8 % 256])]) ∧
    ((state_machine_transition stack m now s).2.filter isSendFrameEffect).length
      = 1 := by
  have hmain : state_machine_transition stack m now s =
      ({ m with previous_state := m.current_state, current_state := s,
                state_enter_time := now, current_expression := s - 1 },
       [Effect.setExpression (s - 1),
        Effect.sendFrame (protocol_send_response CMD_SET_STATE
          [s, m.battery_level % 256, s - 1,
           m.servo_h_angle % 256, (m.servo_h_angle >>> 8) % 256,
           m.servo_v_angle % 256, (m.servo_v_angle >>> 8) % 256,
           stack 7 % 256, stack 8 % 256])]) := by
    rcases hs with h | h | h | h | h <;> subst h <;>
      simp only [STATE_SLEEP, STATE_WAKE, STATE_LISTEN, STATE_THINK,
        STATE_TALK] at hne ⊢ <;>
      simp [state_machine_transition, transitionExpr, STATE_SLEEP, STATE_WAKE,
        STATE_LISTEN, STATE_THINK, STATE_TALK, hne]
  refine ⟨hmain, ?_⟩
  rw [hmain]
  simp [isSendFrameEffect]

/-- Witness for C9: transitioning the initial machine (in `SLEEP`) to
`TALK` at time 500. -/
theorem c9_witness :
    state_machine_transition (fun _ => 0) initStateMachine 500 STATE_TALK =
      ({ current_state := 5, previous_state := 1, state_enter_time := 500,
         battery_level := 100, current_expression := 4, servo_h_angle := 90,
         servo_v_angle := 90, running := false },
       [Effect.setExpression 4,
        Effect.sendFrame (protocol_send_response CMD_SET_STATE
          [5, 100, 4, 90, 0, 90, 0, 0, 0])]) ∧
    ((state_machine_transition (fun _ => 0) initStateMachine 500
        STATE_TALK).2.filter isSendFrameEffect).length = 1 :=
  c9_transition_coverage (fun _ => 0) initStateMachine 500 STATE_TALK
    (by decide) (by decide)

set_option maxRecDepth 32768 in
/-- Claim C10 fails on the code (code bug): the defensive reset fires only
once the cursor reaches `4 + MAX_DATA_LEN + 1 = 1029`, which is one byte
too late.  Feeding `AA 01 01 04` (declared length `0x0401 = 1025`) followed
by 1025 payload bytes makes the parser store the 1025th payload byte at
relative index 1024 — outside the 1024-byte `data` buffer (in the C struct
this overwrites the `crc` field) — before any reset occurs. -/
theorem c10_out_of_bounds_store :
    RxEvent.store 1024 0 ∈
      (protocol_process_data initHandler
        ([0xAA, 0x01, 0x01, 0x04] ++ List.replicate 1025 0)).2 ∧
    ¬ 1024 < MAX_DATA_LEN := by
  constructor
  · rw [protocol_process_data_append]
    have hh := feed_header initHandler 1 1 4 rfl
    simp only [FRAME_HEAD] at hh
    rw [hh]
    have hlen : (1 : Nat) ||| 4 <<< 8 = 1025 := by decide
    simp only [initHandler, hlen]
    have hp := feed_payload (List.replicate 1025 0) 170 1 1025 (fun _ => 0) 0 0
      (fun _ => false) (by simp) (by omega)
    simp only [Nat.add_zero] at hp
    rw [hp]
    have hmem := store_mem_storeEvents 1025 0 1024 0 (by omega)
    simp only [Nat.zero_add] at hmem
    simpa using hmem
  · decide

end ButlerX
